import Mathlib

/-!
Verification development for the YouTube content generator (src/app.py).

The Python source is shallowly embedded below.  Strings are modelled as
Lean `String`s, but every primitive the program relies on (strip, split,
lower, substring search) is implemented here by structural recursion on
`String.data`, so that all definitions evaluate inside the kernel.  The
models follow Python semantics on the ASCII range, which is the range the
program's literals and parsing logic operate on:

* `pyStrip`    models `str.strip()`          (ASCII whitespace)
* `pyLower`    models `str.lower()`          (ASCII letters)
* `pySplitLines` models `str.split('\n')`
* `pySplitWs`  models `str.split()`          (split on whitespace runs, no empties)
* `splitDelims` models `re.split(r'[,;|]+', s)` (runs of delimiters collapsed)
* `strContains s pat` models `pat in s`
* `matchNumbered` models `re.match(r'^\d+\.\s*(.+)', line.strip())` returning group 1
* `stripTrailingParen` models `re.sub(r'\s*\([^)]*\)$', '', title)`

The external generation endpoint is modelled as an oracle: for the retry
client an indexed sequence of call outcomes, and for the orchestrator a
function from prompt to the string the client hands back.
-/

/-- ASCII whitespace, as recognised by Python `str.strip`, `str.split` and `\s`. -/
def isWs (c : Char) : Bool :=
  c = ' ' || c = '\t' || c = '\n' || c = '\r' || c = '\x0b' || c = '\x0c'

/-- Remove leading and trailing whitespace from a character list. -/
def trimList (cs : List Char) : List Char :=
  ((cs.dropWhile isWs).reverse.dropWhile isWs).reverse

/-- Model of Python `str.strip()`. -/
def pyStrip (s : String) : String :=
  String.mk (trimList s.data)

/-- ASCII lowering of one character, as Python `str.lower()` acts on ASCII. -/
def lowerChar (c : Char) : Char :=
  if 65 ≤ c.toNat ∧ c.toNat ≤ 90 then Char.ofNat (c.toNat + 32) else c

/-- Model of Python `str.lower()`. -/
def pyLower (s : String) : String :=
  String.mk (s.data.map lowerChar)

/-- Split at every character satisfying `p`; adjacent separators yield empty
groups (the behaviour of Python `str.split(sep)` for a single separator). -/
def splitPred (p : Char → Bool) : List Char → List (List Char)
  | [] => [[]]
  | c :: rest =>
    if p c then [] :: splitPred p rest
    else
      match splitPred p rest with
      | [] => [[c]]
      | g :: gs => (c :: g) :: gs

/-- Model of Python `response.split('\n')`. -/
def pySplitLines (s : String) : List String :=
  (splitPred (fun c => c = '\n') s.data).map String.mk

/-- Split at runs of characters satisfying `p`: a maximal run of separators
produces a single boundary, while boundary separators still produce empty
groups at the ends — the behaviour of `re.split(r'[X]+', s)`. -/
def splitRuns (p : Char → Bool) : List Char → List (List Char)
  | [] => [[]]
  | [c] => if p c then [[], []] else [[c]]
  | c :: d :: rest =>
    let tail := splitRuns p (d :: rest)
    if p c then
      if p d then tail else [] :: tail
    else
      match tail with
      | [] => [[c]]
      | g :: gs => (c :: g) :: gs

/-- Model of `re.split(r'[,;|]+', s)` from src/app.py lines 234 and 250. -/
def splitDelims (s : String) : List String :=
  (splitRuns (fun c => c = ',' || c = ';' || c = '|') s.data).map String.mk

/-- Model of Python `str.split()`: split on whitespace runs, dropping empties. -/
def pySplitWs (s : String) : List String :=
  ((splitRuns isWs s.data).filter (fun g => !g.isEmpty)).map String.mk

/-- Substring test over character lists: `containsList pat l` is true iff the
characters `pat` occur contiguously inside `l`. -/
def containsList (pat : List Char) : List Char → Bool
  | [] => pat.isEmpty
  | c :: rest => pat.isPrefixOf (c :: rest) || containsList pat rest

/-- Model of the Python membership test `pat in s`. -/
def strContains (s pat : String) : Bool :=
  containsList pat.data s.data

/-- `s` starts with `pat` (used to state the "Error:" sentinel property). -/
def strStartsWith (s pat : String) : Bool :=
  pat.data.isPrefixOf s.data

/-!  ## Response parser: extract_titles (src/app.py lines 203-215) -/

/-- Model of `re.match(r'^\d+\.\s*(.+)', line.strip())`, returning the text of
capture group 1 when the line matches: after stripping, the line must start
with one or more digits followed by a period; the group is the rest of the
line with leading whitespace removed, and must be non-empty. -/
def matchNumbered (line : String) : Option String :=
  let cs := (pyStrip line).data
  let ds := cs.takeWhile Char.isDigit
  let rest := cs.dropWhile Char.isDigit
  match ds, rest with
  | [], _ => none
  | _ :: _, '.' :: r =>
    let r2 := r.dropWhile isWs
    if r2.isEmpty then none else some (String.mk r2)
  | _ :: _, _ => none

/-- Model of `re.sub(r'\s*\([^)]*\)$', '', title)`: if the title ends with a
parenthesised group containing no `)` — i.e. an opening parenthesis after the
last earlier `)` — remove that group together with the whitespace run
immediately before it.  Otherwise return the title unchanged. -/
def stripTrailingParen (title : String) : String :=
  let cs := title.data
  if cs.getLast? = some ')' then
    let body := cs.dropLast
    let zone := (body.reverse.takeWhile (fun c => c ≠ ')')).reverse
    if zone.contains '(' then
      let kept := body.take (body.length - zone.length) ++ zone.takeWhile (fun c => c ≠ '(')
      String.mk ((kept.reverse.dropWhile isWs).reverse)
    else title
  else title

/-- src/app.py lines 203-215: keep lines matching the numbered pattern, take
group 1, strip it, drop a trailing parenthetical, and cap the list at 8. -/
def extract_titles (response : String) : List String :=
  ((pySplitLines response).filterMap (fun line =>
    (matchNumbered line).map (fun g => stripTrailingParen (pyStrip g)))).take 8

/-!  ## Response parser: extract_tags (src/app.py lines 217-251) -/

inductive TagSection where
  | primary
  | secondary
  | trending
deriving DecidableEq

/-- Scan state of the labeled-section loop in extract_tags. -/
structure ScanState where
  current : Option TagSection
  primary : List String
  secondary : List String
  trending : List String
deriving DecidableEq

/-- One iteration of the loop at src/app.py lines 226-240.  Note the source
compares the lowercased line against the mixed-case literals. -/
def scanLine (st : ScanState) (line : String) : ScanState :=
  if strContains (pyLower line) "Primary tags:" then
    { st with current := some TagSection.primary }
  else if strContains (pyLower line) "Secondary tags:" then
    { st with current := some TagSection.secondary }
  else if strContains (pyLower line) "Trending tags:" then
    { st with current := some TagSection.trending }
  else
    match st.current with
    | none => st
    | some sec =>
      if pyStrip line = "" then st
      else
        let tags := (splitDelims line).filterMap
          (fun t => if pyStrip t = "" then none else some (pyStrip t))
        match sec with
        | TagSection.primary => { st with primary := st.primary ++ tags }
        | TagSection.secondary => { st with secondary := st.secondary ++ tags }
        | TagSection.trending => { st with trending := st.trending ++ tags }

/-- Result of extract_tags: the categorized dict with keys primary, secondary,
trending and all, or the fallback dict holding only the key all. -/
inductive TagResult where
  | categorized (primary secondary trending all : List String)
  | trivial (all : List String)
deriving DecidableEq

/-- The list stored under the key "all" (`tags.get('all', [])`). -/
def allOfR : TagResult → List String
  | TagResult.categorized _ _ _ a => a
  | TagResult.trivial a => a

def primaryOfR : TagResult → List String
  | TagResult.categorized p _ _ _ => p
  | TagResult.trivial _ => []

def secondaryOfR : TagResult → List String
  | TagResult.categorized _ s _ _ => s
  | TagResult.trivial _ => []

def trendingOfR : TagResult → List String
  | TagResult.categorized _ _ t _ => t
  | TagResult.trivial _ => []

/-- The fallback filter `2 < len(tag.strip()) < 30` (applied to the stripped tag). -/
def keepTag (t : String) : Bool :=
  decide (2 < t.length ∧ t.length < 30)

/-- src/app.py lines 217-251. -/
def extract_tags (response : String) : TagResult :=
  if strContains response "Primary tags:" || strContains response "Secondary tags:" then
    let fin := (pySplitLines response).foldl scanLine
      { current := none, primary := [], secondary := [], trending := [] }
    TagResult.categorized (fin.primary.take 7) (fin.secondary.take 10)
      (fin.trending.take 7) ((fin.primary ++ fin.secondary ++ fin.trending).take 20)
  else
    TagResult.trivial (((splitDelims response).filterMap
      (fun t => if keepTag (pyStrip t) then some (pyStrip t) else none)).take 20)

/-!  ## Content analyzer (src/app.py lines 253-273) -/

structure ContentMetrics where
  word_count : Nat
  char_count : Nat
  reading_time : Nat
  top_keywords : List (String × Nat)
deriving DecidableEq

/-- `word_freq[word] = word_freq.get(word, 0) + 1`.  A Python dict keeps
insertion order: updating an existing key keeps its position, a new key is
appended at the end. -/
def addWordCore (acc : List (String × Nat)) (w : String) : List (String × Nat) :=
  if (acc.lookup w).isSome then
    acc.map (fun p => if p.1 = w then (p.1, p.2 + 1) else p)
  else acc ++ [(w, 1)]

/-- One step of the frequency loop, including the `if len(word) > 3:` guard. -/
def addWord (acc : List (String × Nat)) (w : String) : List (String × Nat) :=
  if 3 < w.length then addWordCore acc w else acc

def wordFreq (ws : List String) : List (String × Nat) :=
  ws.foldl addWord []

/-- Insert into a list sorted by strictly descending count, after any entry of
equal count — the stable placement of Python `sorted(..., reverse=True)`. -/
def insertDesc (p : String × Nat) : List (String × Nat) → List (String × Nat)
  | [] => [p]
  | q :: l => if q.2 ≤ p.2 then p :: q :: l else q :: insertDesc p l

/-- Stable sort by descending count: models
`sorted(word_freq.items(), key=lambda x: x[1], reverse=True)`. -/
def sortDesc : List (String × Nat) → List (String × Nat)
  | [] => []
  | p :: l => insertDesc p (sortDesc l)

/-- Index of the first occurrence of `w` in a token list (length of the list
when `w` does not occur); used to state the first-encounter tie order of the
keyword ranking. -/
def firstIdx (w : String) : List String → Nat
  | [] => 0
  | x :: xs => if x = w then 0 else firstIdx w xs + 1

/-- src/app.py lines 253-273. -/
def analyze_content_metrics (content : String) : ContentMetrics :=
  let word_count := (pySplitWs content).length
  { word_count := word_count
    char_count := content.length
    reading_time := max 1 (word_count / 200)
    top_keywords := (sortDesc (wordFreq (pySplitWs (pyLower content)))).take 10 }

/-!  ## Generation client (src/app.py lines 189-198) -/

/-- Outcome of one attempt against the generation endpoint: the response text,
or the description of the raised exception. -/
inductive GeminiResult where
  | ok (text : String)
  | err (msg : String)
deriving DecidableEq

def isErr : GeminiResult → Bool
  | GeminiResult.ok _ => false
  | GeminiResult.err _ => true

def errText : GeminiResult → String
  | GeminiResult.ok t => t
  | GeminiResult.err m => m

/-- The sentinel `f"Error: Unable to generate content after {max_retries}
attempts. {str(e)}"`. -/
def errMsgStr (maxRetries : Nat) (m : String) : String :=
  "Error: Unable to generate content after " ++ toString maxRetries ++
    " attempts. " ++ m

/-- Observable behaviour of one call of call_gemini_with_retry: how many
attempts were made, how many one-second sleeps happened, and the returned
value (`none` models Python falling off the loop and returning None). -/
structure RetryTrace where
  attempts : Nat
  sleeps : Nat
  result : Option String
deriving DecidableEq

/-- The loop `for attempt in range(max_retries)` of src/app.py lines 191-198,
with `remaining` iterations left.  On success the stripped text is returned;
on failure at the last attempt (`attempt == max_retries - 1`) the sentinel is
returned; otherwise the client sleeps one second and retries. -/
def retryAux (oracle : Nat → GeminiResult) (maxRetries : Nat) :
    Nat → Nat → RetryTrace
  | _, 0 => { attempts := 0, sleeps := 0, result := none }
  | attempt, remaining + 1 =>
    match oracle attempt with
    | GeminiResult.ok s =>
      { attempts := 1, sleeps := 0, result := some (pyStrip s) }
    | GeminiResult.err m =>
      if attempt = maxRetries - 1 then
        { attempts := 1, sleeps := 0, result := some (errMsgStr maxRetries m) }
      else
        let t := retryAux oracle maxRetries (attempt + 1) remaining
        { attempts := t.attempts + 1, sleeps := t.sleeps + 1, result := t.result }

/-- src/app.py lines 189-198.  `oracle k` is the outcome of attempt `k`.
Python's `range(n)` is empty for every `n ≤ 0`, so `maxRetries : Nat` with
`maxRetries = 0` also covers all non-positive Python arguments. -/
def call_gemini_with_retry (oracle : Nat → GeminiResult) (maxRetries : Nat := 3) :
    RetryTrace :=
  retryAux oracle maxRetries 0 maxRetries

/-!  ## Prompt builder (src/app.py lines 107-184) -/

/-- src/app.py lines 107-124. -/
def create_title_prompt (content video_type target_audience keywords tone
    style_preferences : String) : String :=
  "As a YouTube SEO expert, generate 8 compelling, click-worthy titles for a " ++
  video_type ++ " video targeting " ++ target_audience ++
  ".\n\nContent Summary: " ++ content ++
  "\n\nRequirements:\n- Primary Keywords: " ++ keywords ++
  "\n- Tone: " ++ tone ++
  "\n- Style Preferences: " ++ style_preferences ++
  "\n- Character count: 40-70 characters\n- Include power words and emotional triggers\n- Ensure SEO optimization\n- Avoid clickbait but maintain curiosity\n- Include numbers where relevant\n- Consider trending formats\n\nProvide exactly 8 titles, numbered 1-8, with brief explanations of why each title works.\n"

/-- src/app.py lines 126-149. -/
def create_description_prompt (content video_type target_audience keywords
    channel_info video_length : String) : String :=
  "As a YouTube SEO specialist, write a comprehensive, SEO-optimized description for a " ++
  video_type ++ " video targeting " ++ target_audience ++
  ".\n\nVideo Summary: " ++ content ++
  "\nChannel Information: " ++ channel_info ++
  "\nTarget Keywords: " ++ keywords ++
  "\nEstimated Video Length: " ++ video_length ++
  "\n\nStructure the description with:\n1. Hook (first 125 characters - crucial for search results)\n2. Detailed video overview (200-300 words)\n3. Key timestamps (create realistic placeholders)\n4. Call-to-action section\n5. Social media links placeholder\n6. 5-8 relevant hashtags\n7. Additional resources/links section\n\nFocus on:\n- SEO keyword integration\n- Engaging first paragraph\n- Clear value proposition\n- Community engagement elements\n- Accessibility considerations\n"

/-- src/app.py lines 151-164. -/
def create_tags_prompt (content video_type keywords competitor_analysis : String) :
    String :=
  "Generate 20 strategic YouTube tags for a " ++ video_type ++
  " video to maximize discoverability.\n\nVideo Content: " ++ content ++
  "\nPrimary Keywords: " ++ keywords ++
  "\nCompetitor Insights: " ++ competitor_analysis ++
  "\n\nProvide tags in three categories:\n1. Primary tags (5-7): Main topic keywords\n2. Secondary tags (8-10): Related and long-tail keywords  \n3. Trending tags (5-7): Current trending topics in the niche\n\nFormat: Return as comma-separated list with category labels.\n"

/-- src/app.py lines 166-184. -/
def create_thumbnail_prompt (content video_type target_audience : String) : String :=
  "Suggest 5 effective thumbnail concepts for a " ++ video_type ++
  " video targeting " ++ target_audience ++
  ".\n\nVideo Content: " ++ content ++
  "\n\nFor each thumbnail concept, provide:\n1. Visual elements description\n2. Text overlay suggestions (max 6 words)\n3. Color scheme recommendations\n4. Emotional appeal strategy\n5. A/B testing variations\n\nFocus on:\n- High contrast and readability\n- Emotional expressions if featuring people\n- Clear visual hierarchy\n- Mobile optimization\n- Brand consistency\n"

/-!  ## Session state and orchestrator (src/app.py lines 278-296, 429-503, 607-610) -/

/-- History entry appended at src/app.py lines 481-492. -/
structure HistoryEntry where
  timestamp : String
  video_type : String
  keywords : String
  titles_count : Nat
  has_description : Bool
  tags_count : Nat
  has_thumbnails : Bool
deriving DecidableEq

/-- The export payload assembled at src/app.py lines 328-334 (written only to
a local variable in the source, never into the session mapping). -/
structure ExportData where
  timestamp : String
  titles : List String
  description : String
  tags : Option TagResult
  metrics : Option ContentMetrics
deriving DecidableEq

/-- The session mapping of src/app.py lines 280-290.  Empty dicts are
modelled as `none`. -/
structure SessionState where
  titles : List String
  description : String
  tags : Option TagResult
  thumbnail_concepts : String
  generation_history : List HistoryEntry
  content_metrics : Option ContentMetrics
  selected_title : String
  custom_tags : List String
  export_data : Option ExportData
deriving DecidableEq

/-- Defaults of initialize_session_state (src/app.py lines 280-290). -/
def initialSessionState : SessionState :=
  { titles := []
    description := ""
    tags := none
    thumbnail_concepts := ""
    generation_history := []
    content_metrics := none
    selected_title := ""
    custom_tags := []
    export_data := none }

/-- User-provided form fields read by the generate handler. -/
structure GenInputs where
  video_script : String
  video_type : String
  target_audience : String
  tone : String
  keywords : String
  style_preferences : String
  channel_info : String
  competitor_analysis : String
  video_length : String
deriving DecidableEq

/-- Sidebar and option toggles read by the generate handler.  `max_titles` is
the "Number of titles to generate" slider (src/app.py line 315). -/
structure GenOptions where
  max_titles : Nat
  include_analytics : Bool
  save_history : Bool
  generate_titles : Bool
  generate_desc : Bool
  generate_tags : Bool
  generate_thumb : Bool
deriving DecidableEq

inductive RunOutcome where
  | success
  | validationError
deriving DecidableEq

/-- Tag list used for the history count: `st.session_state.tags.get('all', [])`. -/
def allTags : Option TagResult → List String
  | none => []
  | some r => allOfR r

/-- The Generate Content handler, src/app.py lines 429-503.  `respond prompt`
is the string call_gemini_with_retry hands back for that prompt (the UI-level
progress calls are omitted; they do not touch the session mapping). -/
def runGenerate (respond : String → String) (inp : GenInputs) (opts : GenOptions)
    (st : SessionState) (now : String) : SessionState × RunOutcome :=
  if pyStrip inp.video_script = "" then (st, RunOutcome.validationError)
  else
    let st := if opts.include_analytics then
        { st with content_metrics := some (analyze_content_metrics inp.video_script) }
      else st
    let st := if opts.generate_titles then
        { st with titles := extract_titles (respond (create_title_prompt
            inp.video_script inp.video_type inp.target_audience inp.keywords
            inp.tone inp.style_preferences)) }
      else st
    let st := if opts.generate_desc then
        { st with description := respond (create_description_prompt
            inp.video_script inp.video_type inp.target_audience inp.keywords
            inp.channel_info inp.video_length) }
      else st
    let st := if opts.generate_tags then
        { st with tags := some (extract_tags (respond (create_tags_prompt
            inp.video_script inp.video_type inp.keywords inp.competitor_analysis))) }
      else st
    let st := if opts.generate_thumb then
        { st with thumbnail_concepts := respond (create_thumbnail_prompt
            inp.video_script inp.video_type inp.target_audience) }
      else st
    let st := if opts.save_history then
        { st with generation_history := st.generation_history ++
            [{ timestamp := now
               video_type := inp.video_type
               keywords := inp.keywords
               titles_count := st.titles.length
               has_description := st.description ≠ ""
               tags_count := (allTags st.tags).length
               has_thumbnails := st.thumbnail_concepts ≠ "" }] }
      else st
    (st, RunOutcome.success)

/-- The Clear All Results button, src/app.py lines 607-610: exactly the keys
titles, description, tags, thumbnail_concepts, content_metrics and
selected_title are reset. -/
def clearResults (st : SessionState) : SessionState :=
  { st with titles := []
            description := ""
            tags := none
            thumbnail_concepts := ""
            content_metrics := none
            selected_title := "" }

/-!  ## Helper lemmas: substring search -/

lemma isPrefixOf_append_self (l r : List Char) : l.isPrefixOf (l ++ r) = true := by
  induction l with
  | nil => simp [List.isPrefixOf]
  | cons a as ih => simp [List.isPrefixOf, ih]

lemma mem_of_isPrefixOf : ∀ (p l : List Char), p.isPrefixOf l = true →
    ∀ c, c ∈ p → c ∈ l
  | [], _, _, c, hc => absurd hc (List.not_mem_nil c)
  | a :: as, [], h, _, _ => by simp [List.isPrefixOf] at h
  | a :: as, b :: bs, h, c, hc => by
    simp only [List.isPrefixOf, Bool.and_eq_true, beq_iff_eq] at h
    rcases List.mem_cons.mp hc with rfl | hc'
    · exact List.mem_cons.mpr (Or.inl h.1)
    · exact List.mem_cons.mpr (Or.inr (mem_of_isPrefixOf as bs h.2 c hc'))

lemma mem_of_containsList : ∀ (pat l : List Char), containsList pat l = true →
    ∀ c, c ∈ pat → c ∈ l
  | pat, [], h, c, hc => by
    simp only [containsList, List.isEmpty_iff] at h
    subst h; exact absurd hc (List.not_mem_nil c)
  | pat, b :: bs, h, c, hc => by
    simp only [containsList, Bool.or_eq_true] at h
    rcases h with h | h
    · exact mem_of_isPrefixOf _ _ h c hc
    · exact List.mem_cons_of_mem b (mem_of_containsList pat bs h c hc)

lemma containsList_append_mid : ∀ (l p r : List Char),
    containsList p (l ++ (p ++ r)) = true
  | [], p, r => by
    cases p with
    | nil =>
      cases r with
      | nil => rfl
      | cons c cs => simp [containsList, List.isPrefixOf]
    | cons x xs =>
      simp only [List.nil_append, List.cons_append, containsList, Bool.or_eq_true]
      exact Or.inl (isPrefixOf_append_self (x :: xs) r)
  | a :: l', p, r => by
    simp only [List.cons_append, containsList, Bool.or_eq_true]
    exact Or.inr (containsList_append_mid l' p r)

lemma strContains_sandwich (a p b : String) : strContains (a ++ (p ++ b)) p = true := by
  show containsList p.data (a ++ (p ++ b)).data = true
  rw [String.data_append, String.data_append]
  exact containsList_append_mid a.data p.data b.data

lemma strContains_append_right (a p : String) : strContains (a ++ p) p = true := by
  show containsList p.data (a ++ p).data = true
  rw [String.data_append]
  have := containsList_append_mid a.data p.data []
  rwa [List.append_nil] at this

lemma strStartsWith_append (p s : String) : strStartsWith (p ++ s) p = true := by
  show p.data.isPrefixOf (p ++ s).data = true
  rw [String.data_append]
  exact isPrefixOf_append_self p.data s.data

/-!  ## Helper lemmas: the retry client -/

lemma errMsgStr_split (mr : Nat) (m : String) :
    errMsgStr mr m =
      "Error:" ++ (" Unable to generate content after " ++
        (toString mr ++ (" attempts. " ++ m))) := by
  show "Error: Unable to generate content after " ++ toString mr ++
      " attempts. " ++ m = _
  have h : ("Error: Unable to generate content after " : String) =
      "Error:" ++ " Unable to generate content after " := by decide
  rw [h, String.append_assoc, String.append_assoc, String.append_assoc]

lemma errMsgStr_startsWith (mr : Nat) (m : String) :
    strStartsWith (errMsgStr mr m) "Error:" = true := by
  rw [errMsgStr_split]; exact strStartsWith_append _ _

lemma errMsgStr_contains_count (mr : Nat) (m : String) :
    strContains (errMsgStr mr m) (toString mr) = true := by
  rw [errMsgStr_split]
  have h : ("Error:" : String) ++ (" Unable to generate content after " ++
      (toString mr ++ (" attempts. " ++ m))) =
      ("Error:" ++ " Unable to generate content after ") ++
        (toString mr ++ (" attempts. " ++ m)) := by
    rw [String.append_assoc]
  rw [h]; exact strContains_sandwich _ _ _

lemma errMsgStr_contains_msg (mr : Nat) (m : String) :
    strContains (errMsgStr mr m) m = true := by
  show strContains ("Error: Unable to generate content after " ++ toString mr ++
      " attempts. " ++ m) m = true
  exact strContains_append_right _ _

lemma retryAux_all_fail (oracle : Nat → GeminiResult) (mr : Nat) :
    ∀ (remaining attempt : Nat), attempt + remaining = mr → 0 < remaining →
    (∀ k, k < mr → isErr (oracle k) = true) →
    retryAux oracle mr attempt remaining =
      { attempts := remaining, sleeps := remaining - 1,
        result := some (errMsgStr mr (errText (oracle (mr - 1)))) } := by
  intro remaining
  induction remaining with
  | zero => intro attempt h h0; omega
  | succ r ih =>
    intro attempt hsum _ hfail
    have hlt : attempt < mr := by omega
    have herr := hfail attempt hlt
    cases ho : oracle attempt with
    | ok s => rw [ho] at herr; simp [isErr] at herr
    | err m =>
      cases r with
      | zero =>
        have hatt : attempt = mr - 1 := by omega
        subst hatt
        simp [retryAux, ho, errText]
      | succ r' =>
        have hne : ¬(attempt = mr - 1) := by omega
        have ihres := ih (attempt + 1) (by omega) (by omega) hfail
        conv_lhs => rw [retryAux]
        simp only [ho, if_neg hne, ihres]
        simp

/-- C4: when every attempt against the endpoint fails,
`call_gemini_with_retry` (with a positive configured retry count) never
raises: it makes exactly `maxRetries` attempts, sleeps the fixed one-second
delay between consecutive attempts (`maxRetries - 1` sleeps), and returns a
string that starts with "Error:" and contains both the configured retry count
and the description of the last error. -/
theorem c4_retry_all_fail (oracle : Nat → GeminiResult) (maxRetries : Nat)
    (hpos : 0 < maxRetries)
    (hfail : ∀ k, k < maxRetries → isErr (oracle k) = true) :
    (call_gemini_with_retry oracle maxRetries).attempts = maxRetries ∧
    (call_gemini_with_retry oracle maxRetries).sleeps = maxRetries - 1 ∧
    (call_gemini_with_retry oracle maxRetries).result =
      some (errMsgStr maxRetries (errText (oracle (maxRetries - 1)))) ∧
    strStartsWith (errMsgStr maxRetries (errText (oracle (maxRetries - 1))))
      "Error:" = true ∧
    strContains (errMsgStr maxRetries (errText (oracle (maxRetries - 1))))
      (toString maxRetries) = true ∧
    strContains (errMsgStr maxRetries (errText (oracle (maxRetries - 1))))
      (errText (oracle (maxRetries - 1))) = true := by
  have h := retryAux_all_fail oracle maxRetries maxRetries 0 (by omega) hpos hfail
  unfold call_gemini_with_retry
  rw [h]
  exact ⟨rfl, rfl, rfl, errMsgStr_startsWith _ _, errMsgStr_contains_count _ _,
    errMsgStr_contains_msg _ _⟩

def c4oracle : Nat → GeminiResult := fun k => GeminiResult.err ("boom" ++ toString k)

/-- Witness for C4 at a concrete always-failing collaborator and 3 retries. -/
theorem c4_retry_all_fail_witness :
    (call_gemini_with_retry c4oracle 3).attempts = 3 ∧
    (call_gemini_with_retry c4oracle 3).sleeps = 2 ∧
    (call_gemini_with_retry c4oracle 3).result =
      some "Error: Unable to generate content after 3 attempts. boom2" := by
  have h := c4_retry_all_fail c4oracle 3 (by decide) (by decide)
  exact ⟨h.1, h.2.1, by rw [h.2.2.1]; decide⟩

/-- C9: with `max_retries = 0` (Python `range(n)` is empty for every
non-positive `n`, so `0` models all non-positive values) the client makes no
attempt against the endpoint and returns None rather than a string. -/
theorem c9_zero_retries (oracle : Nat → GeminiResult) :
    call_gemini_with_retry oracle 0 =
      { attempts := 0, sleeps := 0, result := none } := rfl

/-!  ## Claims about the orchestrator and session state -/

/-- C7: an empty or whitespace-only script is rejected before any generation
step executes: the run signals a validation error and leaves every session
field untouched. -/
theorem c7_empty_input_rejected (respond : String → String) (inp : GenInputs)
    (opts : GenOptions) (st : SessionState) (now : String)
    (h : pyStrip inp.video_script = "") :
    runGenerate respond inp opts st now = (st, RunOutcome.validationError) := by
  unfold runGenerate
  rw [h]
  simp

def c7inp : GenInputs :=
  { video_script := "   \t ", video_type := "Tutorial", target_audience := "General",
    tone := "Casual", keywords := "kw", style_preferences := "", channel_info := "",
    competitor_analysis := "", video_length := "5-10 minutes" }

def c7opts : GenOptions :=
  { max_titles := 8, include_analytics := true, save_history := true,
    generate_titles := true, generate_desc := true, generate_tags := true,
    generate_thumb := true }

def c7state : SessionState :=
  { initialSessionState with titles := ["previous title"], description := "old" }

/-- Witness for C7 on a whitespace-only script and a non-default prior state. -/
theorem c7_empty_input_rejected_witness :
    pyStrip "   \t " = "" ∧
    runGenerate (fun p => p) c7inp c7opts c7state "2026-10-12T00:00:00" =
      (c7state, RunOutcome.validationError) :=
  ⟨by decide, c7_empty_input_rejected (fun p => p) c7inp c7opts c7state
    "2026-10-12T00:00:00" (by decide)⟩

def c3entry : HistoryEntry :=
  { timestamp := "2026-01-01T00:00:00", video_type := "Tutorial", keywords := "kw",
    titles_count := 8, has_description := true, tags_count := 4,
    has_thumbnails := false }

def c3state : SessionState :=
  { titles := ["old title"]
    description := "old description"
    tags := some (TagResult.trivial ["tag1"])
    thumbnail_concepts := "old thumb"
    generation_history := [c3entry]
    content_metrics := some { word_count := 2, char_count := 12, reading_time := 1,
                              top_keywords := [] }
    selected_title := "old title"
    custom_tags := ["my custom tag"]
    export_data := some { timestamp := "2026-01-01T00:00:00", titles := [],
                          description := "", tags := none, metrics := none } }

/-- C3 fails as stated: the Clear All Results action does not reset the
generation history (nor the custom tags) to their empty defaults. -/
theorem c3_clear_keeps_history :
    (clearResults c3state).generation_history ≠ [] ∧
    (clearResults c3state).custom_tags ≠ [] := by
  decide

/-- C3 (amended): the clear action resets titles, description, tags, thumbnail
text, content metrics and the selected title to their defaults, but leaves
custom tags, export data and the generation history unchanged. -/
theorem c3_clear_resets_results (st : SessionState) :
    (clearResults st).titles = [] ∧
    (clearResults st).description = "" ∧
    (clearResults st).tags = none ∧
    (clearResults st).thumbnail_concepts = "" ∧
    (clearResults st).content_metrics = none ∧
    (clearResults st).selected_title = "" ∧
    (clearResults st).generation_history = st.generation_history ∧
    (clearResults st).custom_tags = st.custom_tags ∧
    (clearResults st).export_data = st.export_data :=
  ⟨rfl, rfl, rfl, rfl, rfl, rfl, rfl, rfl, rfl⟩

def c2respond : String → String := fun _ =>
  "1. Alpha\n2. Beta\n3. Gamma\n4. Delta\n5. Epsilon\n6. Zeta\n7. Eta\n8. Theta"

def c2inp : GenInputs :=
  { video_script := "a video about things", video_type := "Tutorial",
    target_audience := "General", tone := "Casual", keywords := "kw",
    style_preferences := "", channel_info := "", competitor_analysis := "",
    video_length := "5-10 minutes" }

def c2opts : GenOptions :=
  { max_titles := 3, include_analytics := false, save_history := false,
    generate_titles := true, generate_desc := false, generate_tags := false,
    generate_thumb := false }

/-- C2 fails on the code: with the "Number of titles to generate" slider at 3,
a run whose title response has 8 numbered lines stores 8 titles — the slider
value is read but never applied (extract_titles always caps at 8). -/
theorem c2_titles_exceed_requested_max :
    c2opts.max_titles = 3 ∧
    ((runGenerate c2respond c2inp c2opts initialSessionState
        "2026-10-12T00:00:00").1.titles).length = 8 := by
  exact ⟨rfl, by decide⟩

def c1response : String :=
  "Primary tags: a, b\nSecondary tags: c\nTrending tags: d, e"

/-- C1 fails on the code: on the spec's own example the categorized scan
returns four empty lists, because the section switch tests whether the
mixed-case literal "Primary tags:" occurs in the lowercased line, which can
never be true. -/
theorem c1_categorized_scan_yields_empty :
    extract_tags c1response = TagResult.categorized [] [] [] [] := by
  decide

/-!  ## The marker match in the labeled-section scan is dead -/

lemma ofNat_add32_toNat : ∀ n < 91, 65 ≤ n → (Char.ofNat (n + 32)).toNat = n + 32 := by
  decide

lemma lowerChar_not_upper (d : Char) :
    ¬(65 ≤ (lowerChar d).toNat ∧ (lowerChar d).toNat ≤ 90) := by
  unfold lowerChar
  by_cases h : 65 ≤ d.toNat ∧ d.toNat ≤ 90
  · rw [if_pos h]
    have := ofNat_add32_toNat d.toNat (by omega) h.1
    rw [this]
    omega
  · rw [if_neg h]
    exact h

lemma not_mem_pyLower_of_upper (s : String) (c : Char)
    (h65 : 65 ≤ c.toNat) (h90 : c.toNat ≤ 90) : c ∉ (pyLower s).data := by
  intro hmem
  have hmem' : c ∈ s.data.map lowerChar := hmem
  rcases List.mem_map.mp hmem' with ⟨d, _, hd⟩
  rw [← hd] at h65 h90
  exact lowerChar_not_upper d ⟨h65, h90⟩

lemma marker_contains_false (line pat : String) (c : Char) (hc : c ∈ pat.data)
    (h65 : 65 ≤ c.toNat) (h90 : c.toNat ≤ 90) :
    strContains (pyLower line) pat = false := by
  cases hb : strContains (pyLower line) pat with
  | false => rfl
  | true =>
    exact absurd (mem_of_containsList pat.data (pyLower line).data hb c hc)
      (not_mem_pyLower_of_upper line c h65 h90)

lemma scanLine_marker_primary (line : String) :
    strContains (pyLower line) "Primary tags:" = false :=
  marker_contains_false line _ 'P' (by decide) (by decide) (by decide)

lemma scanLine_marker_secondary (line : String) :
    strContains (pyLower line) "Secondary tags:" = false :=
  marker_contains_false line _ 'S' (by decide) (by decide) (by decide)

lemma scanLine_marker_trending (line : String) :
    strContains (pyLower line) "Trending tags:" = false :=
  marker_contains_false line _ 'T' (by decide) (by decide) (by decide)

lemma scanLine_none_fixed (st : ScanState) (h : st.current = none) (line : String) :
    scanLine st line = st := by
  unfold scanLine
  rw [scanLine_marker_primary line, scanLine_marker_secondary line,
    scanLine_marker_trending line, h]
  simp

lemma foldl_scanLine_empty (lines : List String) :
    lines.foldl scanLine
      { current := none, primary := [], secondary := [], trending := [] } =
      { current := none, primary := [], secondary := [], trending := [] } := by
  induction lines with
  | nil => rfl
  | cons l ls ih => rw [List.foldl_cons, scanLine_none_fixed _ rfl l, ih]

lemma extract_tags_categorized_empty (response : String)
    (h : (strContains response "Primary tags:" ||
        strContains response "Secondary tags:") = true) :
    extract_tags response = TagResult.categorized [] [] [] [] := by
  unfold extract_tags
  rw [h, foldl_scanLine_empty]
  simp

/-- C10: in the labeled-section branch of extract_tags, tokens on a line that
contains a category marker never end up in any of the output lists. -/
theorem c10_marker_line_tokens_never_tagged (response line token : String)
    (hbranch : (strContains response "Primary tags:" ||
        strContains response "Secondary tags:") = true)
    (hline : line ∈ pySplitLines response)
    (hmarker : (strContains line "Primary tags:" ||
        strContains line "Secondary tags:" ||
        strContains line "Trending tags:") = true)
    (htok : token ∈ (splitDelims line).filterMap
        (fun t => if pyStrip t = "" then none else some (pyStrip t))) :
    token ∉ primaryOfR (extract_tags response) ∧
    token ∉ secondaryOfR (extract_tags response) ∧
    token ∉ trendingOfR (extract_tags response) ∧
    token ∉ allOfR (extract_tags response) := by
  rw [extract_tags_categorized_empty response hbranch]
  simp [primaryOfR, secondaryOfR, trendingOfR, allOfR]

def c10resp : String := "Primary tags: alpha, beta"

/-- Witness for C10: in "Primary tags: alpha, beta" the token "beta" sits on
the marker line and is absent from every output list. -/
theorem c10_marker_line_tokens_never_tagged_witness :
    (strContains c10resp "Primary tags:" ||
      strContains c10resp "Secondary tags:") = true ∧
    c10resp ∈ pySplitLines c10resp ∧
    "beta" ∈ (splitDelims c10resp).filterMap
      (fun t => if pyStrip t = "" then none else some (pyStrip t)) ∧
    "beta" ∉ allOfR (extract_tags c10resp) :=
  ⟨by decide, by decide, by decide,
    (c10_marker_line_tokens_never_tagged c10resp c10resp "beta" (by decide)
      (by decide) (by decide) (by decide)).2.2.2⟩

/-!  ## The fallback branch of extract_tags -/

lemma filterMap_strip_filter (p : String → Bool) (l : List String) :
    l.filterMap (fun t => if p (pyStrip t) then some (pyStrip t) else none) =
    (l.map pyStrip).filter p := by
  induction l with
  | nil => rfl
  | cons a as ih =>
    by_cases h : p (pyStrip a) <;>
      simp [List.filterMap_cons, List.filter_cons, h, ih]

/-- C6: with no section marker anywhere in the response, extract_tags returns
only the key "all": the whole response split on commas, semicolons and pipes,
each token stripped, kept when its length is strictly between 2 and 30, in
original order, capped at 20 entries. -/
theorem c6_no_marker_fallback (response : String)
    (h1 : strContains response "Primary tags:" = false)
    (h2 : strContains response "Secondary tags:" = false)
    (h3 : strContains response "Trending tags:" = false) :
    extract_tags response =
      TagResult.trivial ((((splitDelims response).map pyStrip).filter keepTag).take 20) ∧
    (∀ t ∈ allOfR (extract_tags response), 2 < t.length ∧ t.length < 30) ∧
    (allOfR (extract_tags response)).length ≤ 20 := by
  have hcond : (strContains response "Primary tags:" ||
      strContains response "Secondary tags:") = false := by
    rw [h1, h2]; rfl
  have heq : extract_tags response =
      TagResult.trivial ((((splitDelims response).map pyStrip).filter keepTag).take 20) := by
    unfold extract_tags
    rw [hcond, filterMap_strip_filter]
    simp
  refine ⟨heq, ?_, ?_⟩
  · intro t ht
    rw [heq] at ht
    have ht' : t ∈ ((splitDelims response).map pyStrip).filter keepTag :=
      (List.take_sublist 20 _).subset ht
    have := (List.mem_filter.mp ht').2
    simpa [keepTag] using this
  · rw [heq]
    exact List.length_take_le 20 _

def c6resp : String := "go, x, validtagname, yz"

/-- Witness for C6 on the spec's boundary example. -/
theorem c6_no_marker_fallback_witness :
    strContains c6resp "Primary tags:" = false ∧
    extract_tags c6resp =
      TagResult.trivial ((((splitDelims c6resp).map pyStrip).filter keepTag).take 20) ∧
    extract_tags c6resp = TagResult.trivial ["validtagname"] :=
  ⟨by decide,
    (c6_no_marker_fallback c6resp (by decide) (by decide) (by decide)).1,
    by decide⟩

/-!  ## extract_titles: count, order and parenthetical stripping -/

lemma length_filterMap_eq_countP {α β : Type} (f : α → Option β) :
    ∀ l : List α, (l.filterMap f).length = l.countP (fun a => (f a).isSome)
  | [] => rfl
  | a :: as => by
    cases h : f a <;>
      simp [List.filterMap_cons, h, List.countP_cons,
        length_filterMap_eq_countP f as]

/-- C5: whenever at least 8 lines of the response match the numbered pattern,
extract_titles returns exactly 8 entries (the matching lines in original
order, trailing parentheticals stripped); on the spec's example it returns
["Foo", "Bar"]. -/
theorem c5_extract_titles :
    (∀ response : String,
      8 ≤ (pySplitLines response).countP (fun l => (matchNumbered l).isSome) →
      (extract_titles response).length = 8) ∧
    extract_titles "1. Foo (great hook)\n2. Bar" = ["Foo", "Bar"] := by
  constructor
  · intro response h
    unfold extract_titles
    rw [List.length_take]
    have hlen : ((pySplitLines response).filterMap (fun line =>
        (matchNumbered line).map (fun g => stripTrailingParen (pyStrip g)))).length =
        (pySplitLines response).countP (fun l => (matchNumbered l).isSome) := by
      rw [length_filterMap_eq_countP]
      apply List.countP_congr
      intro x _
      cases matchNumbered x <;> simp
    rw [hlen]
    omega
  · decide

def c5resp : String :=
  "1. a1\n2. a2\n3. a3\n4. a4\n5. a5\n6. a6\n7. a7\n8. a8\n9. a9"

/-- Witness for C5 on a response with nine numbered lines. -/
theorem c5_extract_titles_witness :
    8 ≤ (pySplitLines c5resp).countP (fun l => (matchNumbered l).isSome) ∧
    (extract_titles c5resp).length = 8 :=
  ⟨by decide, c5_extract_titles.1 c5resp (by decide)⟩

/-!  ## Content analyzer: keyword table invariants -/

lemma lookup_isSome_iff (w : String) (acc : List (String × Nat)) :
    (acc.lookup w).isSome = true ↔ w ∈ acc.map Prod.fst := by
  induction acc with
  | nil => simp [List.lookup]
  | cons p ps ih =>
    obtain ⟨k, v⟩ := p
    by_cases h : w = k
    · simp [List.lookup, h]
    · have hb : (w == k) = false := by simp [h]
      simp [List.lookup, hb, ih, h]

lemma firstIdx_append_left (w : String) (l r : List String) (h : w ∈ l) :
    firstIdx w (l ++ r) = firstIdx w l := by
  induction l with
  | nil => cases h
  | cons x xs ih =>
    by_cases hx : x = w
    · simp [firstIdx, hx]
    · have hm : w ∈ xs := by
        rcases List.mem_cons.mp h with h' | h'
        · exact absurd h'.symm hx
        · exact h'
      simp [firstIdx, hx, ih hm]

lemma firstIdx_append_not_mem (w : String) (l r : List String) (h : w ∉ l) :
    firstIdx w (l ++ r) = l.length + firstIdx w r := by
  induction l with
  | nil => simp
  | cons x xs ih =>
    have hx : ¬(x = w) := fun e => h (by rw [e]; exact List.mem_cons_self w xs)
    have hm : w ∉ xs := fun hm => h (List.mem_cons_of_mem x hm)
    simp [firstIdx, hx, ih hm]
    omega

lemma firstIdx_lt_length (w : String) (l : List String) (h : w ∈ l) :
    firstIdx w l < l.length := by
  induction l with
  | nil => cases h
  | cons x xs ih =>
    by_cases hx : x = w
    · simp [firstIdx, hx]
    · have hm : w ∈ xs := by
        rcases List.mem_cons.mp h with h' | h'
        · exact absurd h'.symm hx
        · exact h'
      simp only [firstIdx, if_neg hx, List.length_cons]
      exact Nat.succ_lt_succ (ih hm)

lemma foldl_addWord_filter (ws : List String) : ∀ acc,
    ws.foldl addWord acc =
      (ws.filter (fun w => decide (3 < w.length))).foldl addWordCore acc := by
  induction ws with
  | nil => intro acc; rfl
  | cons w ws ih =>
    intro acc
    by_cases h : 3 < w.length
    · simp [List.foldl_cons, List.filter_cons, h, addWord, ih]
    · simp [List.foldl_cons, List.filter_cons, h, addWord, ih]

lemma addWordCore_update (acc : List (String × Nat)) (w : String)
    (hlk : (acc.lookup w).isSome = true) :
    addWordCore acc w = acc.map (fun p => if p.1 = w then (p.1, p.2 + 1) else p) := by
  unfold addWordCore
  rw [if_pos hlk]

lemma addWordCore_append (acc : List (String × Nat)) (w : String)
    (hlk : (acc.lookup w).isSome = false) :
    addWordCore acc w = acc ++ [(w, 1)] := by
  unfold addWordCore
  rw [hlk]
  simp

lemma addWordCore_foldl_inv :
    ∀ (rest pre : List String) (acc : List (String × Nat)),
    (∀ w : String, w ∈ acc.map Prod.fst ↔ w ∈ pre) →
    (∀ p ∈ acc, p.2 = pre.count p.1) →
    List.Pairwise (fun a b : String × Nat =>
      firstIdx a.1 pre < firstIdx b.1 pre) acc →
    (∀ w : String, w ∈ (rest.foldl addWordCore acc).map Prod.fst ↔ w ∈ pre ++ rest) ∧
    (∀ p ∈ rest.foldl addWordCore acc, p.2 = (pre ++ rest).count p.1) ∧
    List.Pairwise (fun a b : String × Nat =>
      firstIdx a.1 (pre ++ rest) < firstIdx b.1 (pre ++ rest))
      (rest.foldl addWordCore acc)
  | [], pre, acc => by
    intro hk hc hp
    simp only [List.foldl_nil, List.append_nil]
    exact ⟨hk, hc, hp⟩
  | w :: rest, pre, acc => by
    intro hk hc hp
    rw [List.foldl_cons]
    have hpair' : List.Pairwise (fun a b : String × Nat =>
        firstIdx a.1 (pre ++ [w]) < firstIdx b.1 (pre ++ [w])) acc := by
      refine hp.imp_of_mem ?_
      intro a b ha hb hab
      have ha1 : a.1 ∈ pre := (hk a.1).mp (List.mem_map_of_mem Prod.fst ha)
      have hb1 : b.1 ∈ pre := (hk b.1).mp (List.mem_map_of_mem Prod.fst hb)
      rw [firstIdx_append_left a.1 pre [w] ha1, firstIdx_append_left b.1 pre [w] hb1]
      exact hab
    have hmain : (∀ x : String,
        x ∈ (addWordCore acc w).map Prod.fst ↔ x ∈ pre ++ [w]) ∧
        (∀ p ∈ addWordCore acc w, p.2 = (pre ++ [w]).count p.1) ∧
        List.Pairwise (fun a b : String × Nat =>
          firstIdx a.1 (pre ++ [w]) < firstIdx b.1 (pre ++ [w]))
          (addWordCore acc w) := by
      cases hlk : (acc.lookup w).isSome with
      | true =>
        have hw : w ∈ pre := (hk w).mp ((lookup_isSome_iff w acc).mp hlk)
        rw [addWordCore_update acc w hlk]
        have hkeys : (acc.map (fun p => if p.1 = w then (p.1, p.2 + 1) else p)).map
            Prod.fst = acc.map Prod.fst := by
          rw [List.map_map]
          apply List.map_congr_left
          intro p _
          by_cases hpw : p.1 = w <;> simp [hpw]
        refine ⟨?_, ?_, ?_⟩
        · intro x
          rw [hkeys, hk x]
          simp only [List.mem_append, List.mem_singleton]
          constructor
          · exact Or.inl
          · rintro (hx | rfl)
            · exact hx
            · exact hw
        · intro p' hp'
          rcases List.mem_map.mp hp' with ⟨p, hpmem, rfl⟩
          by_cases hpw : p.1 = w
          · simp only [if_pos hpw]
            rw [List.count_append]
            have h1 : List.count p.1 [w] = 1 := by
              rw [hpw]
              simp
            rw [h1, ← hc p hpmem]
          · simp only [if_neg hpw]
            rw [List.count_append]
            have h0 : List.count p.1 [w] = 0 := by
              apply List.count_eq_zero.mpr
              simp [hpw]
            rw [h0, Nat.add_zero]
            exact hc p hpmem
        · refine List.Pairwise.map _ ?_ hpair'
          intro a b hab
          have hfa : ((fun p : String × Nat =>
              if p.1 = w then (p.1, p.2 + 1) else p) a).1 = a.1 := by
            by_cases h : a.1 = w <;> simp [h]
          have hfb : ((fun p : String × Nat =>
              if p.1 = w then (p.1, p.2 + 1) else p) b).1 = b.1 := by
            by_cases h : b.1 = w <;> simp [h]
          rw [hfa, hfb]
          exact hab
      | false =>
        have hnw : w ∉ pre := by
          intro hwp
          have : w ∈ acc.map Prod.fst := (hk w).mpr hwp
          rw [← lookup_isSome_iff w acc] at this
          rw [hlk] at this
          cases this
        rw [addWordCore_append acc w hlk]
        refine ⟨?_, ?_, ?_⟩
        · intro x
          simp only [List.map_append, List.map_cons, List.map_nil,
            List.mem_append, List.mem_singleton, hk x]
        · intro p' hp'
          rcases List.mem_append.mp hp' with hpm | hpm
          · have hp1 : p'.1 ∈ pre := (hk p'.1).mp (List.mem_map_of_mem Prod.fst hpm)
            have hne : p'.1 ≠ w := fun e => hnw (e ▸ hp1)
            rw [List.count_append]
            have h0 : List.count p'.1 [w] = 0 := by
              apply List.count_eq_zero.mpr
              simp [hne]
            rw [h0, Nat.add_zero]
            exact hc p' hpm
          · have : p' = (w, 1) := List.mem_singleton.mp hpm
            subst this
            rw [List.count_append]
            have h0 : List.count w pre = 0 := List.count_eq_zero.mpr hnw
            have h1 : List.count w [w] = 1 := by simp
            rw [h0, h1]
        · refine List.pairwise_append.mpr ⟨hpair', List.pairwise_singleton _ _, ?_⟩
          intro a ha b hb
          have hb' : b = (w, 1) := List.mem_singleton.mp hb
          subst hb'
          have ha1 : a.1 ∈ pre := (hk a.1).mp (List.mem_map_of_mem Prod.fst ha)
          rw [firstIdx_append_left a.1 pre [w] ha1,
            firstIdx_append_not_mem w pre [w] hnw]
          have hidx : firstIdx w [w] = 0 := by simp [firstIdx]
          rw [hidx, Nat.add_zero]
          exact firstIdx_lt_length a.1 pre ha1
    have hres := addWordCore_foldl_inv rest (pre ++ [w]) (addWordCore acc w)
      hmain.1 hmain.2.1 hmain.2.2
    have hra : (pre ++ [w]) ++ rest = pre ++ w :: rest := by simp
    rw [hra] at hres
    exact hres

/-!  ## Content analyzer: stable descending sort -/

lemma mem_insertDesc (p x : String × Nat) : ∀ l : List (String × Nat),
    x ∈ insertDesc p l ↔ x = p ∨ x ∈ l
  | [] => by simp [insertDesc]
  | q :: l => by
    by_cases h : q.2 ≤ p.2
    · simp only [insertDesc, if_pos h, List.mem_cons]
    · simp only [insertDesc, if_neg h, List.mem_cons, mem_insertDesc p x l]
      tauto

lemma mem_sortDesc (x : String × Nat) : ∀ l : List (String × Nat),
    x ∈ sortDesc l ↔ x ∈ l
  | [] => by simp [sortDesc]
  | p :: l => by
    simp [sortDesc, mem_insertDesc, mem_sortDesc x l]

lemma pairwise_insertDesc {R : (String × Nat) → (String × Nat) → Prop}
    (p : String × Nat) : ∀ l : List (String × Nat),
    List.Pairwise (fun a b => b.2 ≤ a.2 ∧ (a.2 = b.2 → R a b)) l →
    (∀ q ∈ l, q.2 = p.2 → R p q) →
    List.Pairwise (fun a b => b.2 ≤ a.2 ∧ (a.2 = b.2 → R a b)) (insertDesc p l)
  | [] => by
    intro _ _
    simp [insertDesc]
  | q :: l => by
    intro hpw htie
    rcases List.pairwise_cons.mp hpw with ⟨hq, hl⟩
    by_cases h : q.2 ≤ p.2
    · simp only [insertDesc, if_pos h]
      refine List.pairwise_cons.mpr ⟨?_, hpw⟩
      intro y hy
      rcases List.mem_cons.mp hy with rfl | hy'
      · exact ⟨h, fun he => htie y (List.mem_cons_self y l) he.symm⟩
      · have hyq := hq y hy'
        exact ⟨Nat.le_trans hyq.1 h,
          fun he => htie y (List.mem_cons_of_mem q hy') he.symm⟩
    · have hpl : p.2 < q.2 := Nat.lt_of_not_le h
      simp only [insertDesc, if_neg h]
      refine List.pairwise_cons.mpr ⟨?_, ?_⟩
      · intro y hy
        rcases (mem_insertDesc p y l).mp hy with rfl | hy'
        · exact ⟨Nat.le_of_lt hpl, fun he => absurd he (by omega)⟩
        · exact hq y hy'
      · exact pairwise_insertDesc p l hl
          (fun y hy he => htie y (List.mem_cons_of_mem q hy) he)

lemma pairwise_sortDesc {R : (String × Nat) → (String × Nat) → Prop} :
    ∀ l : List (String × Nat),
    List.Pairwise (fun a b => a.2 = b.2 → R a b) l →
    List.Pairwise (fun a b => b.2 ≤ a.2 ∧ (a.2 = b.2 → R a b)) (sortDesc l)
  | [] => by
    intro _
    simp [sortDesc]
  | p :: l => by
    intro hpw
    rcases List.pairwise_cons.mp hpw with ⟨hp, hl⟩
    have ih := pairwise_sortDesc l hl
    simp only [sortDesc]
    exact pairwise_insertDesc p (sortDesc l) ih
      (fun q hq he => hp q ((mem_sortDesc q l).mp hq) he.symm)

/-- C8: for every input text, reading time is `max 1 (word_count / 200)` with
integer division (so it is at least 1, and exactly 1 whenever the word count
is at most 200), and the top keyword list holds at most 10 pairs, each a
lower-cased whitespace token of length strictly greater than 3 paired with
its frequency, sorted by strictly descending frequency with ties kept in
first-encounter order. -/
theorem c8_content_metrics (content : String) :
    (analyze_content_metrics content).reading_time =
      max 1 ((analyze_content_metrics content).word_count / 200) ∧
    1 ≤ (analyze_content_metrics content).reading_time ∧
    ((analyze_content_metrics content).word_count ≤ 200 →
      (analyze_content_metrics content).reading_time = 1) ∧
    (analyze_content_metrics content).top_keywords.length ≤ 10 ∧
    (∀ p ∈ (analyze_content_metrics content).top_keywords,
      p.1 ∈ pySplitWs (pyLower content) ∧ 3 < p.1.length ∧
      p.2 = ((pySplitWs (pyLower content)).filter
        (fun w => decide (3 < w.length))).count p.1) ∧
    List.Pairwise (fun a b : String × Nat => b.2 ≤ a.2 ∧ (a.2 = b.2 →
      firstIdx a.1 ((pySplitWs (pyLower content)).filter
        (fun w => decide (3 < w.length))) <
      firstIdx b.1 ((pySplitWs (pyLower content)).filter
        (fun w => decide (3 < w.length)))))
      (analyze_content_metrics content).top_keywords := by
  have hfield_rt : (analyze_content_metrics content).reading_time =
      max 1 ((pySplitWs content).length / 200) := rfl
  have hfield_wc : (analyze_content_metrics content).word_count =
      (pySplitWs content).length := rfl
  have hfield_tk : (analyze_content_metrics content).top_keywords =
      (sortDesc (wordFreq (pySplitWs (pyLower content)))).take 10 := rfl
  have hfreq : wordFreq (pySplitWs (pyLower content)) =
      ((pySplitWs (pyLower content)).filter
        (fun w => decide (3 < w.length))).foldl addWordCore [] := by
    unfold wordFreq
    rw [foldl_addWord_filter]
  have hinv := addWordCore_foldl_inv
    ((pySplitWs (pyLower content)).filter (fun w => decide (3 < w.length))) [] []
    (by simp) (by simp) (by simp)
  simp only [List.nil_append] at hinv
  refine ⟨?_, ?_, ?_, ?_, ?_, ?_⟩
  · rw [hfield_rt, hfield_wc]
  · rw [hfield_rt]
    exact le_max_left 1 _
  · intro h
    rw [hfield_wc] at h
    rw [hfield_rt]
    have hx : (pySplitWs content).length / 200 ≤ 1 := by
      have h200 := Nat.div_le_div_right (c := 200) h
      simpa using h200
    have h01 : (pySplitWs content).length / 200 = 0 ∨
        (pySplitWs content).length / 200 = 1 := by omega
    rcases h01 with h0 | h0 <;> simp [h0]
  · rw [hfield_tk]
    exact List.length_take_le 10 _
  · intro p hp
    rw [hfield_tk] at hp
    have hp1 : p ∈ sortDesc (wordFreq (pySplitWs (pyLower content))) :=
      (List.take_sublist 10 _).subset hp
    have hp2 : p ∈ wordFreq (pySplitWs (pyLower content)) :=
      (mem_sortDesc p _).mp hp1
    rw [hfreq] at hp2
    have hkey := (hinv.1 p.1).mp (List.mem_map_of_mem Prod.fst hp2)
    have hcnt := hinv.2.1 p hp2
    have hkey' := List.mem_filter.mp hkey
    exact ⟨hkey'.1, of_decide_eq_true hkey'.2, hcnt⟩
  · rw [hfield_tk]
    have hpw0 : List.Pairwise (fun a b : String × Nat => a.2 = b.2 →
        firstIdx a.1 ((pySplitWs (pyLower content)).filter
          (fun w => decide (3 < w.length))) <
        firstIdx b.1 ((pySplitWs (pyLower content)).filter
          (fun w => decide (3 < w.length))))
        (wordFreq (pySplitWs (pyLower content))) := by
      rw [hfreq]
      refine List.Pairwise.imp ?_ hinv.2.2
      intro a b hab
      exact fun _ => hab
    have hpw := pairwise_sortDesc _ hpw0
    exact List.Pairwise.sublist (List.take_sublist 10 _) hpw

/-- Witness for C8 on a short concrete text. -/
theorem c8_content_metrics_witness :
    1 ≤ (analyze_content_metrics "wolf wolf bear wolf bear fox").reading_time ∧
    (analyze_content_metrics "wolf wolf bear wolf bear fox").reading_time = 1 := by
  have h := c8_content_metrics "wolf wolf bear wolf bear fox"
  exact ⟨h.2.1, h.2.2.1 (by decide)⟩
